import Mathlib

/-!
Verification development for the `web-search-duckduckgo` MCP server
(`src/main.py`).  The Python source is shallowly embedded: dictionaries
become association lists or structures with `Option` fields (a `none`
field models an absent key), wall-clock time is an explicit `Nat`
parameter (seconds), the network is an explicit oracle argument
describing the outcome of each outbound HTTP request, and the
process-wide mutable state (the two `TTLCache` stores, the
`search_cache_times` map and the `cache_stats` counters) is threaded
through every operation as an explicit `AppState`.

External collaborators that the spec places out of scope (BeautifulSoup
HTML parsing, `urlparse` internals beyond simple splitting) are
abstracted: the oracle hands the code the strings that the scraper
would have extracted, and the three BeautifulSoup text/HTML projections
used by `fetch_url` are parameters of type `HtmlOps`.

Capacity-bounded LRU eviction of `cachetools.TTLCache` is not modelled:
every claim below quantifies over runs in which the 100-entry bound is
never reached, and no claim mentions eviction on overflow.
-/

namespace WebSearch

/-- A Python dictionary value as it occurs in the result records of
`main.py`: either a string or an integer (HTTP status codes). -/
inductive FVal where
  | s (v : String)
  | n (v : Nat)
deriving DecidableEq, Repr

/-- A Python dict with string keys, modelled as an association list in
key-insertion order. -/
abbrev Rec := List (String × FVal)

/-- `r.get(k, "")` for a string-valued field, as used by
`filter_and_sort_results` (src/main.py:854,862-864). -/
def Rec.getS (r : Rec) (k : String) : String :=
  match r.lookup k with
  | some (FVal.s v) => v
  | _ => ""

/-- Python's `s.lower()`, as ASCII case mapping on the character list
(the configured classification terms are ASCII or CJK, and CJK
characters have no case in either language). -/
def strLower (s : String) : String := String.mk (s.toList.map Char.toLower)

/-- Python's `s.strip()`: drop whitespace from both ends. -/
def strStrip (s : String) : String :=
  String.mk (((s.toList.dropWhile Char.isWhitespace).reverse.dropWhile Char.isWhitespace).reverse)

/-- Python's `s.startswith(pre)`. -/
def strStarts (s pre : String) : Bool := pre.toList.isPrefixOf s.toList

/-- Split at every occurrence of the character `sep`; `acc` holds the
current piece reversed. -/
def splitCharAux (sep : Char) : List Char → List Char → List (List Char)
  | [], acc => [acc.reverse]
  | c :: cs, acc =>
    if c = sep then acc.reverse :: splitCharAux sep cs []
    else splitCharAux sep cs (c :: acc)

/-- Python's `s.split(sep)` for a one-character separator. -/
def splitChar (sep : Char) (s : String) : List String :=
  (splitCharAux sep s.toList []).map String.mk

/-- Split at every non-overlapping occurrence of two consecutive
spaces, left to right (Python's `s.split("  ")`). -/
def splitTwoSpacesAux : List Char → List Char → List (List Char)
  | [], acc => [acc.reverse]
  | [c], acc => [(c :: acc).reverse]
  | c₁ :: c₂ :: cs, acc =>
    if c₁ = ' ' ∧ c₂ = ' ' then acc.reverse :: splitTwoSpacesAux cs []
    else splitTwoSpacesAux (c₂ :: cs) (c₁ :: acc)

/-- Python's `s.split("  ")`. -/
def splitTwoSpaces (s : String) : List String :=
  (splitTwoSpacesAux s.toList []).map String.mk

/-- Python's substring test `needle in hay` on lists of characters. -/
def hasInfix (needle : List Char) : List Char → Bool
  | [] => needle.isEmpty
  | c :: cs => needle.isPrefixOf (c :: cs) || hasInfix needle cs

/-- Python's `needle in hay` on strings. -/
def strContains (hay needle : String) : Bool :=
  hasInfix needle.toList hay.toList

/-- Python dict merge `{**a, **b}` (src/main.py:548): the keys of `a`
keep their position (values overridden by `b` where present), and keys
of `b` not in `a` follow in `b`'s order. -/
def pyMerge (a b : Rec) : Rec :=
  (a.map fun kv =>
    match b.lookup kv.1 with
    | some v => (kv.1, v)
    | none => kv)
  ++ b.filter fun kv => (a.lookup kv.1).isNone

/-- The configuration dictionary built by `load_config` (src/main.py:30-48),
restricted to the tunables the embedded operations read.  Timeouts are
kept abstract (the oracle already decides whether a request times out). -/
structure Config where
  CACHE_TTL : Nat
  CACHE_TTL_NEWS : Nat
  CACHE_TTL_DOCS : Nat
  CONTENT_LENGTH_LIMIT : Nat
  USE_JINA_API : Bool
  SAFE_SEARCH : Bool
deriving DecidableEq, Repr

/-- The default configuration: the fallback values of `load_config`
when no environment variable overrides them (src/main.py:36-45). -/
def cfgDefault : Config :=
  { CACHE_TTL := 3600
    CACHE_TTL_NEWS := 900
    CACHE_TTL_DOCS := 86400
    CONTENT_LENGTH_LIMIT := 5000
    USE_JINA_API := true
    SAFE_SEARCH := true }

/-- The recency terms of the news classification (src/main.py:333). -/
def newsTerms : List String := ["新聞", "最新", "今日", "news", "latest"]

/-- The reference terms of the docs classification (src/main.py:336). -/
def docsTerms : List String := ["文檔", "教程", "指南", "docs", "tutorial", "guide"]

/-- The classification-derived TTL of `search_duckduckgo`
(src/main.py:331-338): news terms are checked first, then docs terms,
each as a substring of the lowercased query; otherwise the default. -/
def query_ttl (cfg : Config) (query : String) : Nat :=
  if newsTerms.any (fun t => strContains (strLower query) t) then cfg.CACHE_TTL_NEWS
  else if docsTerms.any (fun t => strContains (strLower query) t) then cfg.CACHE_TTL_DOCS
  else cfg.CACHE_TTL

/-- The search-cache key `f"{query}:{limit}:{region}:{safe_search}"`
(src/main.py:341); Python renders a bool as `True`/`False`. -/
def searchCacheKey (query : String) (limit : Nat) (region : String) (safe : Bool) : String :=
  query ++ ":" ++ toString limit ++ ":" ++ region ++ ":" ++ (if safe then "True" else "False")

/-- One `cachetools.TTLCache` store: an association list of
key, insertion time and value.  The cache-level TTL is fixed per store
(`CONFIG["CACHE_TTL"]`, src/main.py:54-55). -/
abbrev TCache (V : Type) := List (String × Nat × V)

/-- `key in cache` / `cache[key]` of a `TTLCache`: the entry is visible
only while `now < insertedAt + ttl`, i.e. strictly inside the store's
own TTL window; an expired entry is reported absent. -/
def tGet {V : Type} (c : TCache V) (ttl now : Nat) (k : String) : Option V :=
  match c.lookup k with
  | some (t, v) => if now < t + ttl then some (t, v).2 else none
  | none => none

/-- `cache[key] = v` of a `TTLCache`: (re)inserts the entry with the
current time. -/
def tPut {V : Type} (c : TCache V) (now : Nat) (k : String) (v : V) : TCache V :=
  (k, now, v) :: c.filter fun kv => kv.1 ≠ k

/-- In-place mutation of the list object a cache entry points to
(the aliasing performed by `results[i] = {**item, **content}` in
`search_and_fetch`, src/main.py:547-548): the stored value changes
while the insertion time is untouched. -/
def tSetValue {V : Type} (c : TCache V) (k : String) (v : V) : TCache V :=
  c.map fun kv => if kv.1 = k then (kv.1, kv.2.1, v) else kv

/-- The process-wide mutable state of `main.py`: the two caches, the
`search_cache_times` side table, the `cache_stats` counters, plus two
instrumentation counters for the properties under test: `netCalls`
counts issued outbound HTTP requests and `permits` counts acquisitions
of `request_semaphore`. -/
structure AppState where
  search_cache : TCache (List Rec)
  search_cache_times : List (String × Nat)
  url_cache : TCache Rec
  hits : Nat
  misses : Nat
  netCalls : Nat
  permits : Nat
deriving DecidableEq, Repr

/-- The state right after module initialisation (src/main.py:54-65). -/
def initState : AppState :=
  { search_cache := []
    search_cache_times := []
    url_cache := []
    hits := 0
    misses := 0
    netCalls := 0
    permits := 0 }

/-- One maximal whitespace run becomes a single space, as in
`re.sub(r'\s+', ' ', s)` (src/main.py:91); `pend` records a pending
run not yet emitted. -/
def collapseWsAux (pend : Bool) : List Char → List Char
  | [] => if pend then [' '] else []
  | c :: cs =>
    if c.isWhitespace then collapseWsAux true cs
    else if pend then ' ' :: c :: collapseWsAux false cs
    else c :: collapseWsAux false cs

/-- `re.sub(r'\s+', ' ', s)` on a string. -/
def collapseWs (s : String) : String :=
  String.mk (collapseWsAux false s.toList)

/-- `format_snippet` (src/main.py:85-97): collapse whitespace, strip,
and truncate to `max_length` characters with an appended ellipsis. -/
def format_snippet (snippet : String) (max_length : Nat) : String :=
  if snippet = "" then ""
  else
    let s := strStrip (collapseWs snippet)
    if s.length > max_length then s.take max_length ++ "..." else s

/-- Split `scheme-stripped` URL text at the first `/`: the part before
is `urlparse(...).netloc`, the rest is the path (queries and fragments,
which `urlparse` would peel off, stay in the path here; no embedded
claim looks at them). -/
def splitHostPath (rest : String) : String × String :=
  (String.mk (rest.toList.takeWhile (· ≠ '/')), String.mk (rest.toList.dropWhile (· ≠ '/')))

/-- `format_url_for_display` (src/main.py:99-119): drop the scheme and
a `www.` prefix, shorten a long path to its first three segments. -/
def format_url_for_display (url : String) : String :=
  let hp :=
    if strStarts url "https://" then splitHostPath (url.drop 8)
    else if strStarts url "http://" then splitHostPath (url.drop 7)
    else ("", url)
  let domain := if strStarts hp.1 "www." then hp.1.drop 4 else hp.1
  let path :=
    if hp.2.length > 30 then
      let path_parts := splitChar '/' hp.2
      if path_parts.length > 3 then String.intercalate "/" (path_parts.take 3) ++ "/..."
      else hp.2
    else hp.2
  domain ++ path

/-- The text-cleaning pipeline of `fetch_url` (src/main.py:226-228 and
265-267): strip each line, split each line at double spaces, strip the
pieces and join the non-empty ones with newlines.  (`splitlines` is
modelled as splitting at the newline character.) -/
def clean_text (text : String) : String :=
  let lines := (splitChar '\n' text).map strStrip
  let chunks := (lines.map fun line => ((splitTwoSpaces line).map strStrip)).flatten
  String.intercalate "\n" (chunks.filter fun c => c ≠ "")

/-- The marker appended by the primary-path truncation
(src/main.py:180,231). -/
def truncNoteFull : String := "...\n\n[內容已截斷，點擊原始連結查看完整內容]"

/-- The marker appended by the fallback-path truncation (src/main.py:270). -/
def truncNoteShort : String := "...\n\n[內容已截斷]"

/-- `if max_length and len(content) > max_length:` followed by the
truncation (src/main.py:179-180 etc.); `max_length = 0` is falsy and
disables truncation. -/
def truncateWith (content : String) (max_length : Nat) (marker : String) : String :=
  if max_length ≠ 0 ∧ content.length > max_length then content.take max_length ++ marker
  else content

/-- The HTTP status→message table of `fetch_url` (src/main.py:302-308). -/
def http_error_message (code : Nat) : String :=
  if code = 404 then "網頁不存在或已被移除"
  else if code = 403 then "無法存取此網頁，可能需要登入或沒有權限"
  else if code = 500 then "網站伺服器出現錯誤，請稍後再試"
  else if code = 503 then "網站暫時無法使用，可能正在維護中"
  else "發生錯誤 (HTTP " ++ toString code ++ ")"

/-- The three BeautifulSoup projections `fetch_url` applies to a
response body — external collaborators, kept abstract: `textAll` is
`get_text` after decomposing script/style/nav/footer/iframe/header/aside
(src/main.py:198-223), `textScriptStyle` is `get_text` after
decomposing only script/style (fallback path, src/main.py:261-264),
`mainHtml` is `str(soup.find(["main","article","div","body"]))` (`none`
when no such tag), and `fullHtml` is `str(soup)` (src/main.py:203-204). -/
structure HtmlOps where
  textAll : String → String
  textScriptStyle : String → String
  mainHtml : String → Option String
  fullHtml : String → String

/-- Outcome of one outbound HTTP GET, as decided by the network. -/
inductive FetchOutcome where
  | ok (body : String) (code : Nat)
  | timeout
  | httpError (code : Nat)
  | failure
deriving DecidableEq, Repr

/-- The network's answers for one `fetch_url` call: the primary request
and, should the code fall back, the raw-HTML fallback request. -/
structure FetchNet where
  primary : FetchOutcome
  fallback : FetchOutcome
deriving DecidableEq, Repr

/-- The scheme coercion applied by `fetch_url` (src/main.py:139-140)
and the result-extraction loop (src/main.py:412-413). -/
def coerceUrl (url : String) : String :=
  if strStarts url "http://" || strStarts url "https://" then url
  else "https://" ++ url

/-- `fetch_url` (src/main.py:122-325).  URL validation and scheme
coercion, content-cache lookup keyed by `url:format` with hit/miss
accounting, then — under the concurrency gate — the primary request
(routed through the Jina extraction service when the format is
markdown and the integration is on), on a Jina timeout the raw-HTML
fallback, with every successful result written back to the cache. -/
def fetch_url (cfg : Config) (P : HtmlOps) (url : String) (content_format : String)
    (max_length : Nat) (now : Nat) (net : FetchNet) (st : AppState) : Rec × AppState :=
  if url = "" then
    ([("status", FVal.s "error"), ("message", FVal.s "無效的網址格式")], st)
  else
  let url := coerceUrl url
  let key := url ++ ":" ++ content_format
  match tGet st.url_cache cfg.CACHE_TTL now key with
  | some r => (r, { st with hits := st.hits + 1 })
  | none =>
    let st := { st with misses := st.misses + 1 }
    let st := { st with permits := st.permits + 1 }
    let use_jina := (content_format == "markdown") && cfg.USE_JINA_API
    let st := { st with netCalls := st.netCalls + 1 }
    match net.primary with
    | FetchOutcome.ok body code =>
      if use_jina then
        let content := truncateWith body max_length truncNoteFull
        let r : Rec := [("status", FVal.s "success"), ("format", FVal.s "markdown"),
                        ("url", FVal.s url), ("content", FVal.s content), ("code", FVal.n code)]
        (r, { st with url_cache := tPut st.url_cache now key r })
      else if content_format = "html" then
        let html0 := (P.mainHtml body).getD (P.fullHtml body)
        let html_content :=
          if max_length ≠ 0 ∧ html0.length > max_length then html0.take max_length ++ "..."
          else html0
        let r : Rec := [("status", FVal.s "success"), ("format", FVal.s "html"),
                        ("url", FVal.s url), ("content", FVal.s html_content), ("code", FVal.n code)]
        (r, { st with url_cache := tPut st.url_cache now key r })
      else
        let text := truncateWith (clean_text (P.textAll body)) max_length truncNoteFull
        let r : Rec := [("status", FVal.s "success"), ("format", FVal.s "text"),
                        ("url", FVal.s url), ("content", FVal.s text), ("code", FVal.n code)]
        (r, { st with url_cache := tPut st.url_cache now key r })
    | FetchOutcome.timeout =>
      if use_jina then
        let st := { st with netCalls := st.netCalls + 1 }
        match net.fallback with
        | FetchOutcome.ok body code =>
          let text := truncateWith (clean_text (P.textScriptStyle body)) max_length truncNoteShort
          let r : Rec := [("status", FVal.s "success"), ("format", FVal.s "text"),
                          ("url", FVal.s url), ("content", FVal.s text), ("code", FVal.n code),
                          ("note", FVal.s "已切換到純文本模式，原始 Markdown 轉換失敗")]
          (r, { st with url_cache := tPut st.url_cache now key r })
        | _ =>
          ([("status", FVal.s "error"), ("url", FVal.s url),
            ("message", FVal.s "無法讀取網頁內容，請稍後再試或直接點擊連結查看"),
            ("error_type", FVal.s "timeout")], st)
      else
        ([("status", FVal.s "error"), ("url", FVal.s url),
          ("message", FVal.s "請求超時，網頁載入太慢或無法連線"),
          ("error_type", FVal.s "timeout")], st)
    | FetchOutcome.httpError code =>
      ([("status", FVal.s "error"), ("url", FVal.s url),
        ("message", FVal.s (http_error_message code)), ("code", FVal.n code),
        ("error_type", FVal.s "http")], st)
    | FetchOutcome.failure =>
      ([("status", FVal.s "error"), ("url", FVal.s url),
        ("message", FVal.s "無法讀取網頁內容，請直接點擊連結查看"),
        ("error_type", FVal.s "general")], st)

/-- The strings BeautifulSoup would hand the result-extraction loop for
one `.result__body` node (src/main.py:404-407): the `get_text()` of the
title anchor, URL node and snippet node, `none` when the node is
missing. -/
structure RawElement where
  title : Option String
  url_text : Option String
  snippet : Option String
deriving DecidableEq, Repr

/-- Outcome of the one search GET issued by `search_duckduckgo`. -/
inductive SearchNet where
  | success (elements : List RawElement) (suggestion : Option String)
  | timeout
  | httpError (code : Nat)
  | failure
deriving DecidableEq, Repr

/-- The body of the result-extraction loop (src/main.py:409-426): skip
nodes lacking a title or URL, strip and scheme-coerce the URL, strip
the title, format the snippet and display URL, and build the record
with keys title, url, display_url, snippet. -/
def mkResultDict (e : RawElement) : Option Rec :=
  match e.title, e.url_text with
  | some tRaw, some uRaw =>
    let url_text := coerceUrl (strStrip uRaw)
    let title := strStrip tRaw
    let snippet := format_snippet (match e.snippet with | some sRaw => strStrip sRaw | none => "") 150
    let display_url := format_url_for_display url_text
    some [("title", FVal.s title), ("url", FVal.s url_text),
          ("display_url", FVal.s display_url), ("snippet", FVal.s snippet)]
  | _, _ => none

/-- A response dictionary of the search-side operations.  Each `Option`
field models presence of the corresponding key (`none` = key absent);
`suggestion` is doubly optional because the backend-success path stores
a possibly-`None` value under the key.  `results` is `[]` on responses
that carry no results key. -/
structure Resp where
  status : String
  source : Option String
  results : List Rec
  suggestion : Option (Option String)
  total : Option Nat
  message : Option String
  error_type : Option String
  code : Option Nat
  query : Option String
  format : Option String
  suggestions : Option (List String)
  alternative_queries : Option (List String)
deriving DecidableEq, Repr

/-- A response with every optional key absent. -/
def Resp.base : Resp :=
  { status := ""
    source := none
    results := []
    suggestion := none
    total := none
    message := none
    error_type := none
    code := none
    query := none
    format := none
    suggestions := none
    alternative_queries := none }

/-- The two-layer search-cache read of `search_duckduckgo`
(src/main.py:342-352): `key in search_cache` is the `TTLCache`
visibility check against the store-level `CONFIG["CACHE_TTL"]`, and on
top of it the insertion time recorded in `search_cache_times` is
re-checked against the classification-derived `ttl`; either check
failing makes the read a miss.  A key absent from `search_cache_times`
defaults to `datetime.min`, an arbitrarily stale time, hence a miss. -/
def searchCacheLookup (cfg : Config) (st : AppState) (now : Nat) (key : String) (ttl : Nat) :
    Option (List Rec) :=
  match tGet st.search_cache cfg.CACHE_TTL now key with
  | some v =>
    match st.search_cache_times.lookup key with
    | some t => if now - t < ttl then some v else none
    | none => none
  | none => none

/-- `search_duckduckgo` (src/main.py:327-472): classification-derived
TTL, the two-layer cache check (`key in search_cache`, a `TTLCache`
with the store-level default TTL, then the `search_cache_times`
freshness check against the classification TTL), hit/miss accounting,
and on a miss the backend request through the concurrency gate with
result extraction, cache population and the response literals of the
source.  A key missing from `search_cache_times` falls back to
`datetime.min`, i.e. an arbitrarily stale insertion time. -/
def search_duckduckgo (cfg : Config) (query : String) (limit : Nat) (region : String)
    (safe_search : Bool) (now : Nat) (net : SearchNet) (st : AppState) : Resp × AppState :=
  let ttl := query_ttl cfg query
  let key := searchCacheKey query limit region safe_search
  match searchCacheLookup cfg st now key ttl with
  | some v =>
    ({ Resp.base with status := "success", source := some "cache", results := v },
     { st with hits := st.hits + 1 })
  | none =>
    let st := { st with misses := st.misses + 1 }
    let st := { st with permits := st.permits + 1, netCalls := st.netCalls + 1 }
    match net with
    | SearchNet.timeout =>
      ({ Resp.base with
         status := "error"
         message := some "搜尋請求超時，請稍後再試"
         suggestion := some (some "您可以縮短搜尋關鍵字或檢查網路連線")
         error_type := some "timeout" }, st)
    | SearchNet.httpError c =>
      ({ Resp.base with
         status := "error"
         message := some "搜尋服務暫時無法使用"
         suggestion := some (some "請稍後再試，或使用較簡單的搜尋關鍵字")
         error_type := some "http"
         code := some c }, st)
    | SearchNet.failure =>
      ({ Resp.base with
         status := "error"
         message := some "搜尋過程發生錯誤"
         suggestion := some (some "請嘗試使用不同的關鍵字")
         error_type := some "general" }, st)
    | SearchNet.success elems sugg =>
      let suggestion := match sugg with | some sg => some (strStrip sg) | none => none
      let results := (elems.take limit).filterMap mkResultDict
      let st := { st with
        search_cache := tPut st.search_cache now key results
        search_cache_times :=
          (key, now) :: st.search_cache_times.filter fun kv => kv.1 ≠ key }
      ({ Resp.base with
         status := "success"
         source := some "duckduckgo"
         results := results
         suggestion := some suggestion
         total := some results.length }, st)

/-- The region whitelist shared by the `search` and `search_and_fetch`
tools (src/main.py:509,597). -/
def valid_regions : List String := ["tw", "us", "hk", "cn", "jp", "global"]

/-- The `search` tool (src/main.py:570-610): reject an empty or
whitespace-only query before any other work, clamp the limit into
1..10, reset an invalid region to `tw`, then delegate to
`search_duckduckgo` with the configured safe-search flag. -/
def search (cfg : Config) (query : String) (limit : Nat) (region : String)
    (now : Nat) (net : SearchNet) (st : AppState) : Resp × AppState :=
  if strStrip query = "" then
    ({ Resp.base with status := "error", message := some "請輸入有效的搜尋關鍵字" }, st)
  else
    let limit := if limit < 1 then 5 else limit
    let limit := min limit 10
    let region := if valid_regions.contains region then region else "tw"
    search_duckduckgo cfg query limit region cfg.SAFE_SEARCH now net st

/-- The fan-out of `asyncio.gather(*fetch_tasks)` (src/main.py:538-544),
modelled as one serialisation of the concurrent fetches; `nets i` is
the network's answer for the fetch of the i-th URL. -/
def fetchSeq (cfg : Config) (P : HtmlOps) (content_format : String) (now : Nat)
    (nets : Nat → FetchNet) : List String → Nat → AppState → List Rec × AppState
  | [], _, st => ([], st)
  | u :: us, i, st =>
    let first := fetch_url cfg P u content_format cfg.CONTENT_LENGTH_LIMIT now (nets i) st
    let rest := fetchSeq cfg P content_format now nets us (i + 1) first.2
    (first.1 :: rest.1, rest.2)

/-- The `search_and_fetch` tool (src/main.py:476-568): input
validation, the search step, the no-results shortcut, the fan-out
fetch of every result URL, and the in-place enrichment
`results[i] = {**item, **content}` — which, because `results` is the
very list object held by the search cache, also rewrites the cached
value (modelled by `tSetValue`). -/
def search_and_fetch (cfg : Config) (P : HtmlOps) (query : String) (limit : Nat)
    (content_format : String) (region : String) (now : Nat)
    (snet : SearchNet) (nets : Nat → FetchNet) (st : AppState) : Resp × AppState :=
  if strStrip query = "" then
    ({ Resp.base with
       status := "error"
       message := some "請輸入有效的搜尋關鍵字"
       suggestion := some (some "搜尋關鍵字不能為空") }, st)
  else
    let limit := if limit < 1 then 3 else limit
    let limit := min limit 10
    let content_format :=
      if ["text", "markdown", "html"].contains content_format then content_format else "text"
    let region := if valid_regions.contains region then region else "tw"
    let step1 := search_duckduckgo cfg query limit region cfg.SAFE_SEARCH now snet st
    let sresp := step1.1
    let st := step1.2
    if sresp.status ≠ "success" then (sresp, st)
    else
      let results := sresp.results
      if results.isEmpty then
        let sugg := [query ++ " 教學", query ++ " 範例", "如何使用 " ++ query]
        ({ Resp.base with
           status := "no_results"
           message := some ("沒有找到「" ++ query ++ "」的相關結果")
           suggestions := some sugg
           alternative_queries := some sugg }, st)
      else
        let urls := (results.filter fun r => (r.lookup "url").isSome).map fun r => r.getS "url"
        let step2 := fetchSeq cfg P content_format now nets urls 0 st
        let contents := step2.1
        let st := step2.2
        let merged := List.zipWith pyMerge results contents
        let newResults := merged ++ results.drop merged.length
        let key := searchCacheKey query limit region cfg.SAFE_SEARCH
        let st := { st with search_cache := tSetValue st.search_cache key newResults }
        ({ Resp.base with
           status := "success"
           query := some query
           total := some newResults.length
           format := some content_format
           results := newResults
           suggestion := some sresp.suggestion.join }, st)

/-- The `filters` argument of `filter_and_sort_results`
(src/main.py:840): each key may be absent (`none`). -/
structure Filters where
  domain : Option String
  keywords : Option (List String)
  exclude_keywords : Option (List String)
deriving DecidableEq, Repr

/-- The filter stage of `filter_and_sort_results` (src/main.py:849-878):
domain substring filter, all-keywords filter, then no-excluded-keyword
filter, in that order; a falsy value (empty string / empty list) under
a key skips that filter, as does an absent key. -/
def applyFilters (filters : Option Filters) (results : List Rec) : List Rec :=
  match filters with
  | none => results
  | some fs =>
    let filtered := results
    let filtered :=
      match fs.domain with
      | some dom =>
        if dom ≠ "" then
          let dom := strLower dom
          filtered.filter fun r => strContains (strLower (r.getS "url")) dom
        else filtered
      | none => filtered
    let filtered :=
      match fs.keywords with
      | some ks =>
        if ks ≠ [] then
          let ks := ks.map strLower
          filtered.filter fun r => ks.all fun k =>
            strContains (strLower (r.getS "title")) k || strContains (strLower (r.getS "snippet")) k
        else filtered
      | none => filtered
    let filtered :=
      match fs.exclude_keywords with
      | some ks =>
        if ks ≠ [] then
          let ks := ks.map strLower
          filtered.filter fun r => !(ks.any fun k =>
            strContains (strLower (r.getS "title")) k || strContains (strLower (r.getS "snippet")) k)
        else filtered
      | none => filtered
    filtered

/-- The sort key of the title branch: `x.get("title", "").lower()`
(src/main.py:886). -/
def titleKey (r : Rec) : String := strLower (r.getS "title")

/-- Python's stable `list.sort(key=key, reverse=rev)`: a stable merge
sort under the (reversed, when `rev`) key comparison; elements with
equal keys keep their original relative order either way. -/
def sortByKey {β : Type} [LinearOrder β] (key : Rec → β) (rev : Bool) (l : List Rec) : List Rec :=
  l.mergeSort fun x y => if rev then decide (key y ≤ key x) else decide (key x ≤ key y)

/-- `filter_and_sort_results` (src/main.py:831-930): the conjunctive
filters followed by the sort stage.  `relevance` (and any unrecognised
or falsy `sort_by`) keeps the backend order; `title` sorts by the
case-folded title; `date` sorts by the date extracted from the snippet
— the regex-and-strptime extraction (src/main.py:892-926) is an
external-format concern kept abstract as the `dateKey` parameter
(unparsable snippets map to the minimal key in the source). -/
def filter_and_sort_results (dateKey : Rec → Nat) (results : List Rec)
    (filters : Option Filters) (sort_by : Option String) (rev : Bool) : List Rec :=
  let filtered := applyFilters filters results
  match sort_by with
  | none => filtered
  | some sb =>
    if sb = "relevance" then filtered
    else if sb = "title" then sortByKey titleKey rev filtered
    else if sb = "date" then sortByKey dateKey rev filtered
    else filtered

/-!
The concurrency-gate model.  `request_semaphore` is a counting
semaphore with `MAX_CONCURRENT_REQUESTS` permits (src/main.py:59).  A
task is the instruction trace of one gated region of the source,
projected to the four events that matter for the bound: acquiring the
semaphore (`async with request_semaphore:` entry), starting and
finishing one outbound HTTP request, and releasing the semaphore
(`async with` exit, which Python runs unconditionally, also when the
block is left by an exception).  The traces of the source are:

  * `search_duckduckgo` (src/main.py:379-388) and a direct or primary
    `fetch_url` request (src/main.py:152-171): acquire, one network
    call, release;
  * `fetch_url` with the Jina-timeout fallback (src/main.py:152-258):
    acquire, the primary call, then the fallback call still under the
    same permit, release.

Interleaving is arbitrary: any task may take its next enabled step.
-/

/-- One gate-relevant event of a gated region. -/
inductive GInstr where
  | acquire
  | release
  | netStart
  | netEnd
deriving DecidableEq, Repr

/-- Number of semaphore permits a task holds after executing the first
`n` instructions of `p`. -/
def depthAfter (p : List GInstr) : Nat → Nat
  | 0 => 0
  | n + 1 =>
    match p[n]? with
    | some GInstr.acquire => depthAfter p n + 1
    | some GInstr.release => depthAfter p n - 1
    | _ => depthAfter p n

/-- Number of network calls a task has in flight after executing the
first `n` instructions of `p`. -/
def inNetAfter (p : List GInstr) : Nat → Nat
  | 0 => 0
  | n + 1 =>
    match p[n]? with
    | some GInstr.netStart => inNetAfter p n + 1
    | some GInstr.netEnd => inNetAfter p n - 1
    | _ => inNetAfter p n

/-- Local well-formedness of position `n` of a trace: releases happen
with a permit held and no call in flight, calls start with a permit
held and no call already in flight, and only an in-flight call ends. -/
def wfAt (p : List GInstr) (n : Nat) : Bool :=
  match p[n]? with
  | some GInstr.acquire => true
  | some GInstr.release => decide (1 ≤ depthAfter p n) && decide (inNetAfter p n = 0)
  | some GInstr.netStart => decide (1 ≤ depthAfter p n) && decide (inNetAfter p n = 0)
  | some GInstr.netEnd => decide (inNetAfter p n = 1)
  | none => true

/-- A well-formed trace: every position is locally well-formed. -/
def WfProg (p : List GInstr) : Prop := ∀ n, wfAt p n = true

/-- A running task: its trace and its program counter. -/
structure GTask where
  prog : List GInstr
  pc : Nat
deriving DecidableEq, Repr

/-- The gate state: free permits of `request_semaphore` plus the tasks. -/
structure GateState where
  sem : Nat
  tasks : List GTask
deriving DecidableEq, Repr

/-- Permits held by a task. -/
def GTask.holding (t : GTask) : Nat := depthAfter t.prog t.pc

/-- Network calls a task has in flight. -/
def GTask.active (t : GTask) : Nat := inNetAfter t.prog t.pc

/-- Total number of outstanding network calls. -/
def activeNet (s : GateState) : Nat := (s.tasks.map GTask.active).sum

/-- Total number of permits held across tasks. -/
def holdSum (s : GateState) : Nat := (s.tasks.map GTask.holding).sum

/-- One interleaving step: some task executes its next instruction.
`acquire` only fires when a permit is free (the source state's
semaphore count is written `sem + 1`), and it takes the permit;
`release` returns it; network events leave the count alone. -/
inductive GStep : GateState → GateState → Prop
  | acquire (sem : Nat) (l₁ l₂ : List GTask) (t : GTask)
      (hi : t.prog[t.pc]? = some GInstr.acquire) :
      GStep ⟨sem + 1, l₁ ++ t :: l₂⟩ ⟨sem, l₁ ++ { t with pc := t.pc + 1 } :: l₂⟩
  | release (sem : Nat) (l₁ l₂ : List GTask) (t : GTask)
      (hi : t.prog[t.pc]? = some GInstr.release) :
      GStep ⟨sem, l₁ ++ t :: l₂⟩ ⟨sem + 1, l₁ ++ { t with pc := t.pc + 1 } :: l₂⟩
  | net (sem : Nat) (l₁ l₂ : List GTask) (t : GTask) (i : GInstr)
      (hi : t.prog[t.pc]? = some i)
      (hnet : i = GInstr.netStart ∨ i = GInstr.netEnd) :
      GStep ⟨sem, l₁ ++ t :: l₂⟩ ⟨sem, l₁ ++ { t with pc := t.pc + 1 } :: l₂⟩

/-- The start state: `N` free permits, every task at the start of its
trace. -/
def gateInit (N : Nat) (ps : List (List GInstr)) : GateState :=
  ⟨N, ps.map fun p => ⟨p, 0⟩⟩

/-- The gated region of `search_duckduckgo` and of a `fetch_url` call
that issues one request (direct fetch, or primary request answered
without a timeout): acquire, one network call, release. -/
def gatedOneCall : List GInstr :=
  [GInstr.acquire, GInstr.netStart, GInstr.netEnd, GInstr.release]

/-- The gated region of a `fetch_url` call whose Jina request times out
and which then issues the raw-HTML fallback request under the same
permit: acquire, two network calls in sequence, release. -/
def gatedTwoCalls : List GInstr :=
  [GInstr.acquire, GInstr.netStart, GInstr.netEnd,
   GInstr.netStart, GInstr.netEnd, GInstr.release]

/-- The gate invariant: the free permits plus the permits held across
tasks equal the gate size, and every task runs a well-formed trace. -/
def GateInv (N : Nat) (s : GateState) : Prop :=
  s.sem + holdSum s = N ∧ ∀ t ∈ s.tasks, WfProg t.prog

/-!  Concrete scenario data used by the witnesses, counterexamples and
code-evaluation theorems below. -/

/-- Identity BeautifulSoup projections, for concrete runs (the claims
under test never inspect the parsed content itself). -/
def trivOps : HtmlOps := ⟨fun s => s, fun s => s, fun _ => none, fun s => s⟩

/-- One scraped result node: title `T`, URL text `e.com`, snippet `S`. -/
def elemA : RawElement := ⟨some "T", some "e.com", some "S"⟩

/-- A network answer with both requests succeeding. -/
def netA : FetchNet := ⟨FetchOutcome.ok "b" 200, FetchOutcome.ok "" 200⟩

/-- State after a successful docs-classified search at time 0: the
search cache holds the result list under the docs-class TTL. -/
def stDocs : AppState :=
  (search_duckduckgo cfgDefault "python tutorial docs" 5 "tw" true 0
    (SearchNet.success [elemA] none) initState).2

/-- A state whose search cache and time table hold one entry, inserted
at time 0, for the key of query `hello`. -/
def stHello : AppState :=
  { initState with
    search_cache := [(searchCacheKey "hello" 5 "tw" true, 0, [[("title", FVal.s "T")]])]
    search_cache_times := [(searchCacheKey "hello" 5 "tw" true, 0)] }

/-- A backend-success search at time 0 followed by the same search at
time 1: the second call is a cache hit. -/
def s3hit : Resp × AppState :=
  search_duckduckgo cfgDefault "hello" 5 "tw" true 1 SearchNet.timeout
    (search_duckduckgo cfgDefault "hello" 5 "tw" true 0
      (SearchNet.success [elemA] none) initState).2

/-- A full `search_and_fetch` run: one search result, whose page fetch
succeeds, gets enriched in place. -/
def sfPoison : Resp × AppState :=
  search_and_fetch cfgDefault trivOps "q" 3 "text" "tw" 0
    (SearchNet.success [elemA] none)
    (fun _ => ⟨FetchOutcome.ok "b" 200, FetchOutcome.ok "" 200⟩) initState

/-- A Wikipedia-hosted record with an uppercase-initial title. -/
def recW1 : Rec :=
  [("title", FVal.s "Beta"), ("url", FVal.s "https://en.wikipedia.org/wiki/B"),
   ("display_url", FVal.s "en.wikipedia.org/wiki/B"), ("snippet", FVal.s "b page")]

/-- A non-Wikipedia record with a lowercase-initial title. -/
def recW2 : Rec :=
  [("title", FVal.s "alpha"), ("url", FVal.s "https://example.com/a"),
   ("display_url", FVal.s "example.com/a"), ("snippet", FVal.s "a page")]

/-!  Helper lemmas. -/

/-- Reading back the key just written into a `TTLCache` yields the
value exactly while the store-level window is open. -/
theorem tGet_tPut_same {V : Type} (c : TCache V) (ttl now now2 : Nat) (k : String) (v : V) :
    tGet (tPut c now k v) ttl now2 k = if now2 < now + ttl then some v else none := by
  simp [tGet, tPut, List.lookup]

/-- The boolean title comparison of the `title` sort is transitive. -/
theorem titleLe_trans (a b c : Rec) (h1 : decide (titleKey a ≤ titleKey b) = true)
    (h2 : decide (titleKey b ≤ titleKey c) = true) :
    decide (titleKey a ≤ titleKey c) = true := by
  simp at h1 h2 ⊢
  exact le_trans h1 h2

/-- The boolean title comparison of the `title` sort is total. -/
theorem titleLe_total (a b : Rec) :
    (decide (titleKey a ≤ titleKey b) || decide (titleKey b ≤ titleKey a)) = true := by
  simp
  exact le_total _ _

/-- Positions past the end of a trace are trivially well-formed. -/
theorem wfAt_of_ge (p : List GInstr) (n : Nat) (h : p.length ≤ n) : wfAt p n = true := by
  simp [wfAt, List.getElem?_eq_none h]

/-- Well-formedness needs checking only inside the trace. -/
theorem wfProg_of_forall_lt (p : List GInstr) (h : ∀ n < p.length, wfAt p n = true) :
    WfProg p := fun n =>
  if hn : n < p.length then h n hn else wfAt_of_ge p n (Nat.le_of_not_lt hn)

/-- In a well-formed trace a task never has more calls in flight than
permits held. -/
theorem inNet_le_depth (p : List GInstr) (hw : WfProg p) :
    ∀ n, inNetAfter p n ≤ depthAfter p n := by
  intro n
  induction n with
  | zero => simp [inNetAfter, depthAfter]
  | succ n ih =>
    have h := hw n
    unfold wfAt at h
    unfold inNetAfter depthAfter
    cases hpn : p[n]? with
    | none => simpa [hpn] using ih
    | some i =>
      rw [hpn] at h
      cases i <;> simp_all
      omega

/-- Every interleaving step preserves the gate invariant. -/
theorem gstep_inv {N : Nat} {s s2 : GateState} (h : GStep s s2) (hi : GateInv N s) :
    GateInv N s2 := by
  obtain ⟨hsum, hwf⟩ := hi
  cases h with
  | acquire sem l₁ l₂ t hins =>
    constructor
    · have hdt : depthAfter t.prog (t.pc + 1) = depthAfter t.prog t.pc + 1 := by
        simp [depthAfter, hins]
      simp only [holdSum, GTask.holding, List.map_append, List.map_cons, List.sum_append,
        List.sum_cons] at hsum ⊢
      simp only [hdt]
      omega
    · intro t2 ht2
      simp only [List.mem_append, List.mem_cons] at ht2
      rcases ht2 with h1 | h1 | h1
      · exact hwf t2 (by simp [h1])
      · subst h1; exact hwf t (by simp)
      · exact hwf t2 (by simp [h1])
  | release sem l₁ l₂ t hins =>
    have hwt : WfProg t.prog := hwf t (by simp)
    have hd : 1 ≤ depthAfter t.prog t.pc := by
      have h2 := hwt t.pc
      unfold wfAt at h2
      rw [hins] at h2
      simp at h2
      exact h2.1
    constructor
    · have hdt : depthAfter t.prog (t.pc + 1) = depthAfter t.prog t.pc - 1 := by
        simp [depthAfter, hins]
      simp only [holdSum, GTask.holding, List.map_append, List.map_cons, List.sum_append,
        List.sum_cons] at hsum ⊢
      simp only [hdt]
      omega
    · intro t2 ht2
      simp only [List.mem_append, List.mem_cons] at ht2
      rcases ht2 with h1 | h1 | h1
      · exact hwf t2 (by simp [h1])
      · subst h1; exact hwf t (by simp)
      · exact hwf t2 (by simp [h1])
  | net sem l₁ l₂ t i hins hnet =>
    constructor
    · have hdt : depthAfter t.prog (t.pc + 1) = depthAfter t.prog t.pc := by
        rcases hnet with h1 | h1 <;> subst h1 <;> simp [depthAfter, hins]
      simp only [holdSum, GTask.holding, List.map_append, List.map_cons, List.sum_append,
        List.sum_cons] at hsum ⊢
      simp only [hdt]
      omega
    · intro t2 ht2
      simp only [List.mem_append, List.mem_cons] at ht2
      rcases ht2 with h1 | h1 | h1
      · exact hwf t2 (by simp [h1])
      · subst h1; exact hwf t (by simp)
      · exact hwf t2 (by simp [h1])

/-- The start state satisfies the gate invariant. -/
theorem gateInit_inv (N : Nat) (ps : List (List GInstr)) (hw : ∀ p ∈ ps, WfProg p) :
    GateInv N (gateInit N ps) := by
  constructor
  · have h0 : holdSum (gateInit N ps) = 0 := by
      simp only [gateInit, holdSum, List.map_map]
      apply List.sum_eq_zero
      intro x hx
      simp only [List.mem_map] at hx
      obtain ⟨p, hp, rfl⟩ := hx
      rfl
    have hs : (gateInit N ps).sem = N := rfl
    omega
  · intro t ht
    simp [gateInit] at ht
    obtain ⟨p, hp, hpt⟩ := ht
    subst hpt
    exact hw p hp

/-- The gate invariant holds in every reachable state. -/
theorem reach_inv {N : Nat} {ps : List (List GInstr)} {s : GateState}
    (hw : ∀ p ∈ ps, WfProg p)
    (hr : Relation.ReflTransGen GStep (gateInit N ps) s) : GateInv N s := by
  induction hr with
  | refl => exact gateInit_inv N ps hw
  | tail _ hstep ih => exact gstep_inv hstep ih

/-- The invariant bounds the outstanding network calls by the gate
size. -/
theorem activeNet_le_of_inv {N : Nat} {s : GateState} (hinv : GateInv N s) :
    activeNet s ≤ N := by
  obtain ⟨hsum, hwf⟩ := hinv
  have h1 : activeNet s ≤ holdSum s := by
    unfold activeNet holdSum
    apply List.sum_le_sum
    intro t ht
    exact inNet_le_depth t.prog (hwf t ht) t.pc
  omega

/-!  The claims. -/

/-- Claim C1 (amended).  With an entry for key K inserted into the
search cache and its time table at time T, a read at time T' returns
the stored value — as the cache-hit response, incrementing `hits` —
exactly when it is inside both windows: `T' - T < ttl` for the
classification-derived TTL and `T' < T + CACHE_TTL` for the
store-level TTL of the underlying `TTLCache`; when either window is
closed, the read is a miss (`misses` incremented, response not served
from the cache).  The claim as frozen — retrievability for the full
classification window, in particular the full docs window — fails
because the store-level window also applies; see the
counterexample. -/
theorem C1_cache_read_window (cfg : Config) (query : String) (limit : Nat) (region : String)
    (safe : Bool) (T Tr : Nat) (v : List Rec) (st : AppState) (net : SearchNet)
    (hc : st.search_cache.lookup (searchCacheKey query limit region safe) = some (T, v))
    (ht : st.search_cache_times.lookup (searchCacheKey query limit region safe) = some T) :
    (Tr - T < query_ttl cfg query ∧ Tr < T + cfg.CACHE_TTL →
      search_duckduckgo cfg query limit region safe Tr net st
        = ({ Resp.base with
             status := "success"
             source := some "cache"
             results := v },
           { st with hits := st.hits + 1 }))
  ∧ (¬(Tr - T < query_ttl cfg query ∧ Tr < T + cfg.CACHE_TTL) →
      (search_duckduckgo cfg query limit region safe Tr net st).2.misses = st.misses + 1 ∧
      (search_duckduckgo cfg query limit region safe Tr net st).1.source ≠ some "cache") := by
  constructor
  · rintro ⟨h1, h2⟩
    simp [search_duckduckgo, searchCacheLookup, tGet, hc, ht, h1, h2]
  · intro hnot
    have hlk : searchCacheLookup cfg st Tr (searchCacheKey query limit region safe)
        (query_ttl cfg query) = none := by
      by_cases h2 : Tr < T + cfg.CACHE_TTL
      · by_cases h1 : Tr - T < query_ttl cfg query
        · exact absurd ⟨h1, h2⟩ hnot
        · simp [searchCacheLookup, tGet, hc, ht, h2, h1]
      · simp [searchCacheLookup, tGet, hc, ht, h2]
    cases net <;> simp [search_duckduckgo, hlk, Resp.base]

/-- Claim C1, witness: an entry inserted at time 0 for query `hello`
(default TTL 3600) is served from the cache at time 1000. -/
theorem C1_cache_read_window_witness :
    search_duckduckgo cfgDefault "hello" 5 "tw" true 1000 SearchNet.timeout stHello
      = ({ Resp.base with
           status := "success"
           source := some "cache"
           results := [[("title", FVal.s "T")]] },
         { stHello with hits := stHello.hits + 1 }) :=
  (C1_cache_read_window cfgDefault "hello" 5 "tw" true 0 1000 [[("title", FVal.s "T")]]
    stHello SearchNet.timeout rfl rfl).1 (by decide)

/-- Claim C1, counterexample to the frozen wording: a docs-classified
entry (`python tutorial docs`, TTL 86400) inserted at time 0 is read at
time 7200 — still far inside the docs window — yet the read misses,
because the underlying `TTLCache` expired the entry after
`CACHE_TTL = 3600` seconds. -/
theorem C1_docs_window_counterexample :
    7200 - 0 < query_ttl cfgDefault "python tutorial docs" ∧
    (search_duckduckgo cfgDefault "python tutorial docs" 5 "tw" true 7200
        SearchNet.timeout stDocs).1.source ≠ some "cache" ∧
    (search_duckduckgo cfgDefault "python tutorial docs" 5 "tw" true 7200
        SearchNet.timeout stDocs).2.misses = stDocs.misses + 1 := by decide

/-- Claim C2.  The claim states the search cache always holds the raw
pre-enrichment records with only the fields title, url, display_url
and snippet.  The code violates it: `search_and_fetch` rewrites the
very list object held by the cache when it enriches results in place
(src/main.py:547-548), so after one `search_and_fetch` run the cached
record for the search key carries the fetch fields status, format,
content and code on top of the raw four.  This theorem evaluates the
code at the failing input (query `q`, one result, successful page
fetch) and exhibits the enriched key set of the cached record. -/
theorem C2_cache_holds_enriched_records :
    (tGet sfPoison.2.search_cache cfgDefault.CACHE_TTL 0 (searchCacheKey "q" 3 "tw" true)).map
        (fun v => v.map fun r => r.map Prod.fst)
      = some [["title", "url", "display_url", "snippet", "status", "format", "content", "code"]] := by
  decide

/-- Claim C3 (amended).  A successful search response served from the
backend carries `total` equal to the number of returned results and
the `suggestion` key; a successful response served from the cache
carries only status, source and results — its `total` and `suggestion`
keys are absent.  The frozen claim (total present on every successful
response, cached or not) fails; see the counterexample. -/
theorem C3_response_shape (cfg : Config) (query : String) (limit : Nat) (region : String)
    (safe : Bool) (now : Nat) (st : AppState) :
    (∀ elems sugg,
      searchCacheLookup cfg st now (searchCacheKey query limit region safe)
          (query_ttl cfg query) = none →
      (search_duckduckgo cfg query limit region safe now (SearchNet.success elems sugg) st).1.status
          = "success" ∧
      (search_duckduckgo cfg query limit region safe now (SearchNet.success elems sugg) st).1.source
          = some "duckduckgo" ∧
      (search_duckduckgo cfg query limit region safe now (SearchNet.success elems sugg) st).1.total
          = some (search_duckduckgo cfg query limit region safe now
                    (SearchNet.success elems sugg) st).1.results.length ∧
      ((search_duckduckgo cfg query limit region safe now
          (SearchNet.success elems sugg) st).1.suggestion).isSome)
  ∧ (∀ net v,
      searchCacheLookup cfg st now (searchCacheKey query limit region safe)
          (query_ttl cfg query) = some v →
      (search_duckduckgo cfg query limit region safe now net st).1.status = "success" ∧
      (search_duckduckgo cfg query limit region safe now net st).1.source = some "cache" ∧
      (search_duckduckgo cfg query limit region safe now net st).1.results = v ∧
      (search_duckduckgo cfg query limit region safe now net st).1.total = none ∧
      (search_duckduckgo cfg query limit region safe now net st).1.suggestion = none) := by
  constructor
  · intro elems sugg hmiss
    simp [search_duckduckgo, hmiss, Resp.base]
  · intro net v hhit
    simp [search_duckduckgo, hhit, Resp.base]

/-- Claim C3, witness: a backend-served search has `total` equal to
its result count and a suggestion key. -/
theorem C3_response_shape_witness :
    (search_duckduckgo cfgDefault "hello" 5 "tw" true 0 (SearchNet.success [elemA] none)
        initState).1.status = "success" ∧
    (search_duckduckgo cfgDefault "hello" 5 "tw" true 0 (SearchNet.success [elemA] none)
        initState).1.source = some "duckduckgo" ∧
    (search_duckduckgo cfgDefault "hello" 5 "tw" true 0 (SearchNet.success [elemA] none)
        initState).1.total
      = some (search_duckduckgo cfgDefault "hello" 5 "tw" true 0
                (SearchNet.success [elemA] none) initState).1.results.length ∧
    ((search_duckduckgo cfgDefault "hello" 5 "tw" true 0 (SearchNet.success [elemA] none)
        initState).1.suggestion).isSome :=
  (C3_response_shape cfgDefault "hello" 5 "tw" true 0 initState).1 [elemA] none rfl

/-- Claim C3, counterexample to the frozen wording: the second of two
identical searches is a successful cache-served response with one
result, yet it has no `total` key (src/main.py:348-352 builds the
cache-hit response without it). -/
theorem C3_cache_hit_lacks_total :
    s3hit.1.status = "success" ∧ s3hit.1.results.length = 1 ∧ s3hit.1.total = none := by decide

/-- Claim C4.  For a markdown fetch with the extraction service
enabled: a primary timeout followed by a successful raw-HTML fallback
yields `status = success`, `format = text` and the degraded-mode note
(and, the embedding being a total function, no exception escapes); a
primary timeout whose fallback also fails (times out, returns an HTTP
error, or raises) yields an error with `error_type = timeout`; and a
timeout on a direct fetch — markdown routing off — is terminal with
`error_type = timeout` after exactly one network call. -/
theorem C4_jina_timeout_fallback (cfg : Config) (P : HtmlOps) (url : String)
    (ml now : Nat) (st : AppState) (hu : url ≠ "") :
    (∀ body code, cfg.USE_JINA_API = true →
      tGet st.url_cache cfg.CACHE_TTL now (coerceUrl url ++ ":" ++ "markdown") = none →
      ((fetch_url cfg P url "markdown" ml now
          ⟨FetchOutcome.timeout, FetchOutcome.ok body code⟩ st).1.getS "status" = "success" ∧
       (fetch_url cfg P url "markdown" ml now
          ⟨FetchOutcome.timeout, FetchOutcome.ok body code⟩ st).1.lookup "format"
          = some (FVal.s "text") ∧
       (fetch_url cfg P url "markdown" ml now
          ⟨FetchOutcome.timeout, FetchOutcome.ok body code⟩ st).1.lookup "note"
          = some (FVal.s "已切換到純文本模式，原始 Markdown 轉換失敗")))
  ∧ (∀ fb, cfg.USE_JINA_API = true → (∀ body code, fb ≠ FetchOutcome.ok body code) →
      tGet st.url_cache cfg.CACHE_TTL now (coerceUrl url ++ ":" ++ "markdown") = none →
      ((fetch_url cfg P url "markdown" ml now ⟨FetchOutcome.timeout, fb⟩ st).1.getS "status"
          = "error" ∧
       (fetch_url cfg P url "markdown" ml now ⟨FetchOutcome.timeout, fb⟩ st).1.lookup "error_type"
          = some (FVal.s "timeout")))
  ∧ (∀ cf fb, ((cf == "markdown") && cfg.USE_JINA_API) = false →
      tGet st.url_cache cfg.CACHE_TTL now (coerceUrl url ++ ":" ++ cf) = none →
      ((fetch_url cfg P url cf ml now ⟨FetchOutcome.timeout, fb⟩ st).1.getS "status" = "error" ∧
       (fetch_url cfg P url cf ml now ⟨FetchOutcome.timeout, fb⟩ st).1.lookup "error_type"
          = some (FVal.s "timeout") ∧
       (fetch_url cfg P url cf ml now ⟨FetchOutcome.timeout, fb⟩ st).2.netCalls
          = st.netCalls + 1)) := by
  refine ⟨?_, ?_, ?_⟩
  · intro body code hj hmiss
    simp [fetch_url, hu, hmiss, hj, Rec.getS]
    exact ⟨rfl, rfl⟩
  · intro fb hj hfb hmiss
    cases fb with
    | ok body code => exact absurd rfl (hfb body code)
    | timeout => simp [fetch_url, hu, hmiss, hj, Rec.getS]; rfl
    | httpError code => simp [fetch_url, hu, hmiss, hj, Rec.getS]; rfl
    | failure => simp [fetch_url, hu, hmiss, hj, Rec.getS]; rfl
  · intro cf fb hnj hmiss
    cases fb <;> simp [fetch_url, hu, hmiss, hnj, Rec.getS] <;> rfl

/-- Claim C4, witness: the degraded-fallback branch at a concrete
input. -/
theorem C4_jina_timeout_fallback_witness :
    ((fetch_url cfgDefault trivOps "https://x.com" "markdown" 5000 0
        ⟨FetchOutcome.timeout, FetchOutcome.ok "Body" 200⟩ initState).1.getS "status"
        = "success" ∧
     (fetch_url cfgDefault trivOps "https://x.com" "markdown" 5000 0
        ⟨FetchOutcome.timeout, FetchOutcome.ok "Body" 200⟩ initState).1.lookup "format"
        = some (FVal.s "text") ∧
     (fetch_url cfgDefault trivOps "https://x.com" "markdown" 5000 0
        ⟨FetchOutcome.timeout, FetchOutcome.ok "Body" 200⟩ initState).1.lookup "note"
        = some (FVal.s "已切換到純文本模式，原始 Markdown 轉換失敗")) :=
  (C4_jina_timeout_fallback cfgDefault trivOps "https://x.com" 5000 0 initState
    (by decide)).1 "Body" 200 rfl rfl

/-- Claim C5.  Query classification: a query containing any news term
(case-insensitively) gets the news TTL regardless of docs terms — news
takes priority; otherwise a query containing any docs term gets the
docs TTL; otherwise the default TTL applies.  In particular, for any
configuration: `latest AI news` → news TTL, `python tutorial docs` →
docs TTL, `hello world` → default TTL. -/
theorem C5_query_classification (cfg : Config) (query : String) :
    (newsTerms.any (fun t => strContains (strLower query) t) = true →
      query_ttl cfg query = cfg.CACHE_TTL_NEWS)
  ∧ (newsTerms.any (fun t => strContains (strLower query) t) = false →
     docsTerms.any (fun t => strContains (strLower query) t) = true →
      query_ttl cfg query = cfg.CACHE_TTL_DOCS)
  ∧ (newsTerms.any (fun t => strContains (strLower query) t) = false →
     docsTerms.any (fun t => strContains (strLower query) t) = false →
      query_ttl cfg query = cfg.CACHE_TTL)
  ∧ query_ttl cfg "latest AI news" = cfg.CACHE_TTL_NEWS
  ∧ query_ttl cfg "python tutorial docs" = cfg.CACHE_TTL_DOCS
  ∧ query_ttl cfg "hello world" = cfg.CACHE_TTL := by
  refine ⟨fun h1 => by simp [query_ttl, h1], fun h1 h2 => by simp [query_ttl, h1, h2],
          fun h1 h2 => by simp [query_ttl, h1, h2], ?_, ?_, ?_⟩
  · have h1 : newsTerms.any (fun t => strContains (strLower "latest AI news") t) = true := by
      decide
    simp [query_ttl, h1]
  · have h1 : newsTerms.any (fun t => strContains (strLower "python tutorial docs") t)
        = false := by decide
    have h2 : docsTerms.any (fun t => strContains (strLower "python tutorial docs") t)
        = true := by decide
    simp [query_ttl, h1, h2]
  · have h1 : newsTerms.any (fun t => strContains (strLower "hello world") t) = false := by
      decide
    have h2 : docsTerms.any (fun t => strContains (strLower "hello world") t) = false := by
      decide
    simp [query_ttl, h1, h2]

/-- Claim C5, witness: the three example queries at the default
configuration. -/
theorem C5_query_classification_witness :
    query_ttl cfgDefault "latest AI news" = cfgDefault.CACHE_TTL_NEWS ∧
    query_ttl cfgDefault "python tutorial docs" = cfgDefault.CACHE_TTL_DOCS ∧
    query_ttl cfgDefault "hello world" = cfgDefault.CACHE_TTL :=
  ⟨(C5_query_classification cfgDefault "latest AI news").1 (by decide),
   (C5_query_classification cfgDefault "python tutorial docs").2.1 (by decide) (by decide),
   (C5_query_classification cfgDefault "hello world").2.2.1 (by decide) (by decide)⟩

/-- Claim C6 (amended).  A fetch whose key is in the content cache
returns the cached result with the state changed only by `hits + 1` —
in particular no permit is acquired, no network call is made and no
miss is recorded; a fetch whose key misses records exactly one miss
and no hit.  The frozen final clause — every fetch call increments the
stats exactly once — holds only for calls with a valid (non-empty)
URL: an invalid-input call returns an error before the cache check and
records nothing; see the counterexample. -/
theorem C6_fetch_cache_stats (cfg : Config) (P : HtmlOps) (url cf : String)
    (ml now : Nat) (net : FetchNet) (st : AppState) (hu : url ≠ "") :
    (∀ r, tGet st.url_cache cfg.CACHE_TTL now (coerceUrl url ++ ":" ++ cf) = some r →
      fetch_url cfg P url cf ml now net st = (r, { st with hits := st.hits + 1 }))
  ∧ (tGet st.url_cache cfg.CACHE_TTL now (coerceUrl url ++ ":" ++ cf) = none →
      (fetch_url cfg P url cf ml now net st).2.misses = st.misses + 1 ∧
      (fetch_url cfg P url cf ml now net st).2.hits = st.hits) := by
  constructor
  · intro r hhit
    simp [fetch_url, hu, hhit]
  · intro hmiss
    obtain ⟨p, fb⟩ := net
    cases p <;> cases fb <;>
      simp [fetch_url, hu, hmiss] <;>
      split <;> simp_all <;> split <;> simp_all

/-- Claim C6, witness: a cache hit at a concrete input returns the
cached record and bumps only `hits`. -/
theorem C6_fetch_cache_stats_witness :
    fetch_url cfgDefault trivOps "https://x.com" "text" 5000 50 netA
        { initState with url_cache := [("https://x.com:text", 0, [("status", FVal.s "success")])] }
      = ([("status", FVal.s "success")],
         { { initState with
              url_cache := [("https://x.com:text", 0, [("status", FVal.s "success")])] }
            with hits := 1 }) :=
  (C6_fetch_cache_stats cfgDefault trivOps "https://x.com" "text" 5000 50 netA
    { initState with url_cache := [("https://x.com:text", 0, [("status", FVal.s "success")])] }
    (by decide)).1 [("status", FVal.s "success")] (by decide)

/-- Claim C6, counterexample to the frozen final clause: a fetch call
with an empty URL returns an error and leaves the state — including
both stats counters — untouched, so not every fetch call records a
stats event. -/
theorem C6_invalid_url_no_stats_event :
    fetch_url cfgDefault trivOps "" "text" 5000 0 netA initState
      = ([("status", FVal.s "error"), ("message", FVal.s "無效的網址格式")], initState) := by
  decide

/-- Claim C7.  Calling the `search` tool with an empty or
whitespace-only query returns `status = error` and leaves the state
untouched: no network call, no cache access, no stats event. -/
theorem C7_empty_query_no_network (cfg : Config) (query : String) (limit : Nat)
    (region : String) (now : Nat) (net : SearchNet) (st : AppState)
    (h : strStrip query = "") :
    (search cfg query limit region now net st).1.status = "error" ∧
    (search cfg query limit region now net st).2 = st := by
  simp [search, h]

/-- Claim C7, witness: a whitespace-only query at the initial state. -/
theorem C7_empty_query_no_network_witness :
    (search cfgDefault "   " 5 "tw" 0 SearchNet.timeout initState).1.status = "error" ∧
    (search cfgDefault "   " 5 "tw" 0 SearchNet.timeout initState).2 = initState :=
  C7_empty_query_no_network cfgDefault "   " 5 "tw" 0 SearchNet.timeout initState (by decide)

/-- Claim C8.  With only a domain filter, `filter_and_sort_results`
returns exactly the records whose URL contains the domain as a
case-insensitive substring; with all three filters they apply
conjunctively in the order domain, keywords, exclude-keywords; and
`sort_by = "title"` returns a permutation of the filtered records that
is sorted by case-folded title. -/
theorem C8_filter_and_sort (dk : Rec → Nat) (results : List Rec) :
    (∀ d, d ≠ "" →
      filter_and_sort_results dk results (some ⟨some d, none, none⟩) none false
        = results.filter fun r => strContains (strLower (r.getS "url")) (strLower d))
  ∧ (∀ d ks es, d ≠ "" → ks ≠ [] → es ≠ [] →
      filter_and_sort_results dk results (some ⟨some d, some ks, some es⟩) none false
        = (((results.filter fun r => strContains (strLower (r.getS "url")) (strLower d)).filter
              fun r => (ks.map strLower).all fun k =>
                strContains (strLower (r.getS "title")) k
                  || strContains (strLower (r.getS "snippet")) k).filter
              fun r => !((es.map strLower).any fun k =>
                strContains (strLower (r.getS "title")) k
                  || strContains (strLower (r.getS "snippet")) k)))
  ∧ (∀ fs, (filter_and_sort_results dk results fs (some "title") false).Perm
        (applyFilters fs results)
      ∧ (filter_and_sort_results dk results fs (some "title") false).Sorted
          fun a b => titleKey a ≤ titleKey b) := by
  refine ⟨?_, ?_, ?_⟩
  · intro d hd
    simp [filter_and_sort_results, applyFilters, hd]
  · intro d ks es hd hks hes
    simp [filter_and_sort_results, applyFilters, hd, hks, hes]
  · intro fs
    have heq : filter_and_sort_results dk results fs (some "title") false
        = (applyFilters fs results).mergeSort
            fun x y => decide (titleKey x ≤ titleKey y) := by
      simp [filter_and_sort_results, sortByKey]
    constructor
    · rw [heq]
      exact List.mergeSort_perm (applyFilters fs results) _
    · rw [heq]
      have hs := List.sorted_mergeSort titleLe_trans titleLe_total (applyFilters fs results)
      exact hs.imp fun h => of_decide_eq_true h

/-- Claim C8, witness: the domain filter and the title sort at two
concrete records. -/
theorem C8_filter_and_sort_witness :
    (filter_and_sort_results (fun _ => 0) [recW1, recW2]
        (some ⟨some "wikipedia.org", none, none⟩) none false
      = [recW1, recW2].filter fun r =>
          strContains (strLower (r.getS "url")) (strLower "wikipedia.org"))
  ∧ (filter_and_sort_results (fun _ => 0) [recW1, recW2] none (some "title") false).Sorted
      fun a b => titleKey a ≤ titleKey b :=
  ⟨(C8_filter_and_sort (fun _ => 0) [recW1, recW2]).1 "wikipedia.org" (by decide),
   ((C8_filter_and_sort (fun _ => 0) [recW1, recW2]).2.2 none).2⟩

/-- Claim C9.  Every outbound request of the source runs inside an
`async with request_semaphore` region — acquire before the call,
unconditional release on every exit path — and the fallback request
runs under the permit already held; consequently, for any number of
concurrently interleaved search and fetch tasks running those gated
regions, every state reachable from the start state has at most N
outstanding network calls, N being the gate size. -/
theorem C9_gate_bounds_outstanding_calls (N : Nat) (ps : List (List GInstr))
    (hps : ∀ p ∈ ps, p = gatedOneCall ∨ p = gatedTwoCalls)
    (s : GateState) (hr : Relation.ReflTransGen GStep (gateInit N ps) s) :
    activeNet s ≤ N := by
  have hw : ∀ p ∈ ps, WfProg p := by
    intro p hp
    rcases hps p hp with h | h <;> subst h
    · exact wfProg_of_forall_lt _ (by decide)
    · exact wfProg_of_forall_lt _ (by decide)
  exact activeNet_le_of_inv (reach_inv hw hr)

/-- Claim C9, witness: five fetch tasks over a gate of size two. -/
theorem C9_gate_bounds_outstanding_calls_witness :
    activeNet (gateInit 2 [gatedTwoCalls, gatedTwoCalls, gatedOneCall, gatedOneCall,
      gatedOneCall]) ≤ 2 :=
  C9_gate_bounds_outstanding_calls 2
    [gatedTwoCalls, gatedTwoCalls, gatedOneCall, gatedOneCall, gatedOneCall]
    (by decide) _ Relation.ReflTransGen.refl

/-- Claim C10.  When a markdown fetch degrades to the raw-HTML
fallback and the fallback succeeds, the degraded result (format text,
degraded-mode note) is stored in the content cache under the key
`url:markdown`, and a later markdown fetch of the same URL inside the
cache TTL returns that degraded result as a cache hit — no new network
call, no re-attempted markdown extraction. -/
theorem C10_degraded_result_cached (cfg : Config) (P : HtmlOps) (url : String)
    (ml now now2 : Nat) (body : String) (code : Nat) (net2 : FetchNet) (st : AppState)
    (hu : url ≠ "") (hj : cfg.USE_JINA_API = true)
    (hmiss : tGet st.url_cache cfg.CACHE_TTL now (coerceUrl url ++ ":" ++ "markdown") = none)
    (hfresh : now2 < now + cfg.CACHE_TTL) :
    (fetch_url cfg P url "markdown" ml now
        ⟨FetchOutcome.timeout, FetchOutcome.ok body code⟩ st).1.lookup "format"
      = some (FVal.s "text") ∧
    (fetch_url cfg P url "markdown" ml now
        ⟨FetchOutcome.timeout, FetchOutcome.ok body code⟩ st).1.lookup "note"
      = some (FVal.s "已切換到純文本模式，原始 Markdown 轉換失敗") ∧
    fetch_url cfg P url "markdown" ml now2 net2
        (fetch_url cfg P url "markdown" ml now
          ⟨FetchOutcome.timeout, FetchOutcome.ok body code⟩ st).2
      = ((fetch_url cfg P url "markdown" ml now
            ⟨FetchOutcome.timeout, FetchOutcome.ok body code⟩ st).1,
         { (fetch_url cfg P url "markdown" ml now
              ⟨FetchOutcome.timeout, FetchOutcome.ok body code⟩ st).2 with
           hits := (fetch_url cfg P url "markdown" ml now
              ⟨FetchOutcome.timeout, FetchOutcome.ok body code⟩ st).2.hits + 1 }) := by
  have hstep1 :
      fetch_url cfg P url "markdown" ml now
          ⟨FetchOutcome.timeout, FetchOutcome.ok body code⟩ st
        = ([("status", FVal.s "success"), ("format", FVal.s "text"),
            ("url", FVal.s (coerceUrl url)),
            ("content", FVal.s (truncateWith (clean_text (P.textScriptStyle body)) ml
              truncNoteShort)),
            ("code", FVal.n code),
            ("note", FVal.s "已切換到純文本模式，原始 Markdown 轉換失敗")],
           { st with
             misses := st.misses + 1
             permits := st.permits + 1
             netCalls := st.netCalls + 1 + 1
             url_cache := tPut st.url_cache now (coerceUrl url ++ ":" ++ "markdown")
               [("status", FVal.s "success"), ("format", FVal.s "text"),
                ("url", FVal.s (coerceUrl url)),
                ("content", FVal.s (truncateWith (clean_text (P.textScriptStyle body)) ml
                  truncNoteShort)),
                ("code", FVal.n code),
                ("note", FVal.s "已切換到純文本模式，原始 Markdown 轉換失敗")] }) := by
    simp [fetch_url, hu, hmiss, hj]
  rw [hstep1]
  refine ⟨rfl, rfl, ?_⟩
  have h2 := tGet_tPut_same st.url_cache cfg.CACHE_TTL now now2
    (coerceUrl url ++ ":" ++ "markdown")
    ([("status", FVal.s "success"), ("format", FVal.s "text"),
      ("url", FVal.s (coerceUrl url)),
      ("content", FVal.s (truncateWith (clean_text (P.textScriptStyle body)) ml truncNoteShort)),
      ("code", FVal.n code),
      ("note", FVal.s "已切換到純文本模式，原始 Markdown 轉換失敗")] : Rec)
  rw [if_pos hfresh] at h2
  simp [fetch_url, hu, h2]

/-- Claim C10, witness: the degraded result stored at time 0 is served
as a markdown cache hit at time 100. -/
theorem C10_degraded_result_cached_witness :
    (fetch_url cfgDefault trivOps "https://x.com" "markdown" 5000 0
        ⟨FetchOutcome.timeout, FetchOutcome.ok "Body" 200⟩ initState).1.lookup "format"
      = some (FVal.s "text") ∧
    (fetch_url cfgDefault trivOps "https://x.com" "markdown" 5000 0
        ⟨FetchOutcome.timeout, FetchOutcome.ok "Body" 200⟩ initState).1.lookup "note"
      = some (FVal.s "已切換到純文本模式，原始 Markdown 轉換失敗") ∧
    fetch_url cfgDefault trivOps "https://x.com" "markdown" 5000 100 netA
        (fetch_url cfgDefault trivOps "https://x.com" "markdown" 5000 0
          ⟨FetchOutcome.timeout, FetchOutcome.ok "Body" 200⟩ initState).2
      = ((fetch_url cfgDefault trivOps "https://x.com" "markdown" 5000 0
            ⟨FetchOutcome.timeout, FetchOutcome.ok "Body" 200⟩ initState).1,
         { (fetch_url cfgDefault trivOps "https://x.com" "markdown" 5000 0
              ⟨FetchOutcome.timeout, FetchOutcome.ok "Body" 200⟩ initState).2 with
           hits := (fetch_url cfgDefault trivOps "https://x.com" "markdown" 5000 0
              ⟨FetchOutcome.timeout, FetchOutcome.ok "Body" 200⟩ initState).2.hits + 1 }) :=
  C10_degraded_result_cached cfgDefault trivOps "https://x.com" 5000 0 100 "Body" 200 netA
    initState (by decide) rfl rfl (by decide)

end WebSearch
